import Mathlib

/-!
Verification of `find_pings.py` (easy_adsb): a shallow embedding of the
streaming ADS-B trace extractor and its geo filter, with theorems checking
the natural-language specification against the code.

Modelling conventions:
* Python/JSON numbers are modelled as `ℚ` (the source manipulates them
  exactly: comparisons, addition, truncation); the transcendental haversine
  distance is computed over `ℝ`.
* JSON values are the inductive `Json`; Python `None` is `Json.null`.
* Python exceptions that the source does not catch are modelled with
  `Except PyError` / an error component threaded through the pipeline.
* The comparison `haversine_km ... > max_dist_km` over `ℝ` is not decidable,
  so every function that branches on it takes a `DecidablePred` argument for
  that single test; all remaining code is executable.
-/

/-- Decoded JSON value, as produced by Python's `json.loads`.
`null` also stands for Python `None`. Numbers are modelled as `ℚ`. -/
inductive Json where
  | null : Json
  | bool (b : Bool) : Json
  | num (q : ℚ) : Json
  | str (s : String) : Json
  | arr (elems : List Json) : Json
  | obj (fields : List (String × Json)) : Json

/-- Python exceptions relevant to the modelled code paths. -/
inductive PyError where
  | attributeError : PyError
  | typeError : PyError
deriving DecidableEq

/-- Dictionary lookup on a JSON object (`d[k]` / `d.get(k)` success case).
Python dicts keep the last value bound to a key, hence `getLast?`. -/
def jsonGet : Json → String → Option Json
  | .obj fs, k => ((fs.filter (fun p => p.1 == k)).getLast?).map (fun p => p.2)
  | _, _ => none

/-- Character list with leading whitespace removed. -/
def dropWs : List Char → List Char
  | [] => []
  | c :: cs => if c.isWhitespace then dropWs cs else c :: cs

/-- Python `str.strip()`: whitespace removed from both ends (the source only
ever strips ASCII whitespace in practice). -/
def pyStrip (s : String) : String :=
  String.mk ((dropWs (dropWs s.data).reverse).reverse)

/-- Python `str.lower()`; the identifiers it is applied to are ASCII. -/
def pyLowerStr (s : String) : String :=
  String.mk (s.data.map Char.toLower)

/-- Leading decimal digits of a character list, with the remainder. -/
def takeDigits : List Char → List Char × List Char
  | [] => ([], [])
  | c :: cs =>
    if c.isDigit then
      ((takeDigits cs).1.cons c, (takeDigits cs).2)
    else
      ([], c :: cs)

/-- Numeric value of a digit list (most significant first). -/
def digitsVal : List Char → Nat
  | [] => 0
  | c :: cs => (c.toNat - 48) * 10 ^ cs.length + digitsVal cs

/-- Exponent suffix of a Python float literal: empty, or `e`/`E` followed by an
optionally signed digit string. Returns the mantissa scaled by `10^exp`. -/
def parseExpPart (m : ℚ) : List Char → Option ℚ
  | [] => some m
  | c :: cs =>
    if c = 'e' ∨ c = 'E' then
      match cs with
      | '+' :: ds => if ds = [] ∨ ¬ ds.all Char.isDigit then none
                     else some (m * (10 : ℚ) ^ (digitsVal ds : ℤ))
      | '-' :: ds => if ds = [] ∨ ¬ ds.all Char.isDigit then none
                     else some (m * (10 : ℚ) ^ (-(digitsVal ds : ℤ)))
      | ds => if ds = [] ∨ ¬ ds.all Char.isDigit then none
              else some (m * (10 : ℚ) ^ (digitsVal ds : ℤ))
    else none

/-- Unsigned part of a Python float literal: digits, optional point and
fraction digits (at least one digit overall), optional exponent. -/
def parseUnsignedFloat (cs : List Char) : Option ℚ :=
  let ip := (takeDigits cs).1
  let r1 := (takeDigits cs).2
  match r1 with
  | '.' :: r2 =>
    let fp := (takeDigits r2).1
    let r3 := (takeDigits r2).2
    if ip = [] ∧ fp = [] then none
    else parseExpPart ((digitsVal ip : ℚ) + (digitsVal fp : ℚ) / (10 : ℚ) ^ fp.length) r3
  | _ => if ip = [] then none else parseExpPart (digitsVal ip : ℚ) r1

/-- Python `float(s)` on a string: surrounding whitespace is ignored, an
optional sign precedes the literal; `ValueError` is `none`.  The `inf`/`nan`
spellings and digit-group underscores are not representable in `ℚ` and are
not modelled (no value in the repository's data takes those forms). -/
def pyFloatOfString (s : String) : Option ℚ :=
  match (pyStrip s).data with
  | '+' :: cs => parseUnsignedFloat cs
  | '-' :: cs => (parseUnsignedFloat cs).map Neg.neg
  | cs => parseUnsignedFloat cs

/-- Embeds the helper `_f` of `find_pings.py`: `float(val)` when `val` is not
`None`, with `TypeError`/`ValueError` mapped to `None`.  Python's `float`
accepts numbers, booleans (`True` is `1.0`) and numeric strings. -/
def pyF : Json → Option ℚ
  | .null => none
  | .num q => some q
  | .bool b => some (if b then 1 else 0)
  | .str s => pyFloatOfString s
  | _ => none

/-- Python `str()` of a decoded JSON value.  Strings, booleans and `None`
follow Python exactly; numbers print integer values the way `json.loads`
ints print, and container / fractional renderings are schematic (no claim
evaluates them). -/
def pyStr : Json → String
  | .null => "None"
  | .bool b => if b then "True" else "False"
  | .num q => if q.den = 1 then toString q.num else toString q
  | .str s => s
  | .arr _ => "[...]"
  | .obj _ => "\x7b...\x7d"

/-- Embeds the helper `_s` of `find_pings.py`: `str(val).strip()` for a value
that is not `None`, and `None` otherwise. -/
def pyS : Json → Option String
  | .null => none
  | v => some (pyStrip (pyStr v))

/-- Python attribute access `d.get(k, default)`: succeeds on dicts, raises
`AttributeError` on every other value. -/
def pyGet (data : Json) (k : String) (dflt : Json) : Except PyError Json :=
  match data with
  | .obj _ => .ok ((jsonGet data k).getD dflt)
  | _ => .error .attributeError

/-- Python `.lower()`: defined on strings, `AttributeError` elsewhere. -/
def pyLower : Json → Except PyError String
  | .str s => .ok (pyLowerStr s)
  | _ => .error .attributeError

/-- Python iteration `for x in v`: lists yield their elements, strings their
one-character substrings, dicts their keys; other values raise `TypeError`. -/
def pyIter : Json → Except PyError (List Json)
  | .arr l => .ok l
  | .str s => .ok (s.data.map (fun c => Json.str (String.mk [c])))
  | .obj fs => .ok (fs.map (fun p => Json.str p.1))
  | _ => .error .typeError

/-- Python `base_ts + offset` where `offset` is a float: numbers and booleans
add (a bool is an int in Python), anything else raises `TypeError`. -/
def pyAddNum : Json → ℚ → Option ℚ
  | .num q, o => some (q + o)
  | .bool b, o => some ((if b then 1 else 0) + o)
  | _, _ => none

/-- Python `int()` on an exact number: truncation toward zero. -/
def pyInt (q : ℚ) : Int :=
  if 0 ≤ q then ⌊q⌋ else ⌈q⌉

/-- Civil date (year, month, day) of a day count relative to 1970-01-01,
in the proleptic Gregorian calendar (the arithmetic performed by
`datetime.fromtimestamp(·, timezone.utc)`). -/
def civilFromDays (z0 : Int) : Int × Nat × Nat :=
  let z := z0 + 719468
  let era := Int.fdiv z 146097
  let doe := (z - era * 146097).toNat
  let yoe := (doe - doe / 1460 + doe / 36524 - doe / 146096) / 365
  let doy := doe - (365 * yoe + yoe / 4 - yoe / 100)
  let mp := (5 * doy + 2) / 153
  let d := doy - (153 * mp + 2) / 5 + 1
  let m := if mp < 10 then mp + 3 else mp - 9
  (if m ≤ 2 then (yoe : Int) + era * 400 + 1 else (yoe : Int) + era * 400, m, d)

/-- Two-digit zero-padded decimal rendering. -/
def pad2 (n : Nat) : String :=
  if n < 10 then "0" ++ toString n else toString n

/-- Four-digit zero-padded year rendering (years 1–9999, as `datetime`). -/
def pad4 (y : Int) : String :=
  let n := y.toNat
  if n < 10 then "000" ++ toString n
  else if n < 100 then "00" ++ toString n
  else if n < 1000 then "0" ++ toString n
  else toString n

/-- Embeds `datetime.fromtimestamp(t, tz=timezone.utc).isoformat()` for a
whole number of Unix seconds: note the UTC offset renders as `+00:00`. -/
def isoUtc (t : Int) : String :=
  let days := Int.fdiv t 86400
  let sod := (t - days * 86400).toNat
  let ymd := civilFromDays days
  pad4 ymd.1 ++ "-" ++ pad2 ymd.2.1 ++ "-" ++ pad2 ymd.2.2 ++ "T" ++
    pad2 (sod / 3600) ++ ":" ++ pad2 (sod % 3600 / 60) ++ ":" ++ pad2 (sod % 60) ++ "+00:00"

/-- Python `math.radians`: degrees to radians. -/
noncomputable def radians (x : ℝ) : ℝ :=
  x * (Real.pi / 180)

/-- Embeds `haversine_km` of `find_pings.py`: great-circle distance in km
between two lat/lon points, `R = 6371.0`,
`a = sin²(dlat/2) + cos(lat1)·cos(lat2)·sin²(dlon/2)`, `R * 2 * asin(sqrt a)`. -/
noncomputable def haversine_km (lat1 lon1 lat2 lon2 : ℝ) : ℝ :=
  6371.0 * 2 * Real.arcsin (Real.sqrt
    (Real.sin (radians (lat2 - lat1) / 2) ^ 2 +
      Real.cos (radians lat1) * Real.cos (radians lat2) *
        Real.sin (radians (lon2 - lon1) / 2) ^ 2))

/-- Filter configuration of `stream_pings`: bounding box, center, maximum
haversine distance (km), optional minimum barometric altitude (ft). -/
structure GeoConfig where
  lat_min : ℚ
  lat_max : ℚ
  lon_min : ℚ
  lon_max : ℚ
  center_lat : ℚ
  center_lon : ℚ
  max_dist_km : ℚ
  min_alt_ft : Option ℚ

/-- The one undecidable test of the pipeline:
`haversine_km(center_lat, center_lon, lat, lon) > max_dist_km`. -/
def HavFar (cfg : GeoConfig) (p : ℚ × ℚ) : Prop :=
  haversine_km (cfg.center_lat : ℝ) (cfg.center_lon : ℝ) (p.1 : ℝ) (p.2 : ℝ) >
    (cfg.max_dist_km : ℝ)

/-- Embeds the altitude rejection test of `stream_pings` (line 122):
`min_alt_ft is not None and (alt_baro is None or alt_baro < min_alt_ft)`. -/
def minAltReject : Option ℚ → Option ℚ → Bool
  | none, _ => false
  | some _, none => true
  | some m, some a => decide (a < m)

/-- Embeds the three geo/altitude guards of `stream_pings` (lines 116–123),
in source order: bounding box, haversine distance, minimum altitude.
(`alt_baro` is computed by the caller; in the source it is computed between
the distance and altitude checks, by pure code with no observable effect.) -/
def geoAccept (cfg : GeoConfig) [DecidablePred (HavFar cfg)]
    (lat lon : ℚ) (alt_baro : Option ℚ) : Bool :=
  if ¬ (cfg.lat_min ≤ lat ∧ lat ≤ cfg.lat_max ∧ cfg.lon_min ≤ lon ∧ lon ≤ cfg.lon_max) then
    false
  else if HavFar cfg (lat, lon) then
    false
  else if minAltReject cfg.min_alt_ft alt_baro then
    false
  else
    true

/-- Per-entry header of `stream_pings` (lines 101–106): base timestamp (kept
as the raw JSON value, as the source does), lower-cased icao and the four
defensive string fields. -/
structure Header where
  base_ts : Json
  icao : Option String
  reg : Option String
  atype : Option String
  desc : Option String
  operator : Option String

/-- Embeds lines 101–106 of `find_pings.py`:
`base_ts = data.get("timestamp", 0)`, `icao = _s(data.get("icao", "").lower())`,
`reg = _s(data.get("r"))`, `atype = _s(data.get("t"))`,
`desc = _s(data.get("desc"))`, `operator = _s(data.get("ownOp"))`.
A non-dict `data` or a non-string `icao` raises (uncaught in the source). -/
def extractHeader (data : Json) : Except PyError Header := do
  let bts ← pyGet data ("timestamp") (.num 0)
  let icaoRaw ← pyGet data ("icao") (.str "")
  let icaoLow ← pyLower icaoRaw
  let reg ← pyGet data ("r") .null
  let atype ← pyGet data ("t") .null
  let desc ← pyGet data ("desc") .null
  let ownOp ← pyGet data ("ownOp") .null
  return { base_ts := bts, icao := pyS (.str icaoLow), reg := pyS reg,
           atype := pyS atype, desc := pyS desc, operator := pyS ownOp }

/-- Output row of `stream_pings` (the dict yielded at lines 132–150). -/
structure PingRecord where
  timestamp : String
  icao : Option String
  registration : Option String
  flight : Option String
  lat : ℚ
  lon : ℚ
  altitude_baro : Option ℚ
  alt_geom : Option ℚ
  ground_speed : Option ℚ
  track_degrees : Option ℚ
  vertical_rate : Option ℚ
  aircraft_type : Option String
  description : Option String
  operator : Option String
  squawk : Option String
  category : Option String
  source_type : Option String
deriving DecidableEq

/-- Outcome of one iteration of the point loop: skip (`continue`), yield a
record, or raise an uncaught exception. -/
inductive Step where
  | skip : Step
  | yield (r : PingRecord) : Step
  | crash (e : PyError) : Step
deriving DecidableEq

/-- Embeds the body of the point loop of `stream_pings` (lines 108–150) for
one trace element, with every guard in source order. -/
def processPoint (cfg : GeoConfig) [DecidablePred (HavFar cfg)]
    (hdr : Header) (pt : Json) : Step :=
  match pt with
  | .arr l =>
    if l.length < 3 then .skip
    else
      match pyF (l.getD 1 Json.null), pyF (l.getD 2 Json.null) with
      | some lat, some lon =>
        if geoAccept cfg lat lon (if 3 < l.length then pyF (l.getD 3 Json.null) else none) then
          match pyF (l.getD 0 Json.null) with
          | none => .skip
          | some offset =>
            match pyAddNum hdr.base_ts offset with
            | none => .crash .typeError
            | some t =>
              let ac : Json :=
                if 8 < l.length then
                  match l.getD 8 Json.null with
                  | .obj fs => Json.obj fs
                  | _ => Json.obj []
                else Json.obj []
              .yield
                { timestamp := isoUtc (pyInt t)
                  icao := hdr.icao
                  registration := hdr.reg
                  flight :=
                    match pyS ((jsonGet ac ("flight")).getD Json.null) with
                    | some s => if s = "" then none else some s
                    | none => none
                  lat := lat
                  lon := lon
                  altitude_baro := if 3 < l.length then pyF (l.getD 3 Json.null) else none
                  alt_geom := if 10 < l.length then pyF (l.getD 10 Json.null) else none
                  ground_speed := if 4 < l.length then pyF (l.getD 4 Json.null) else none
                  track_degrees := if 5 < l.length then pyF (l.getD 5 Json.null) else none
                  vertical_rate := if 7 < l.length then pyF (l.getD 7 Json.null) else none
                  aircraft_type := hdr.atype
                  description := hdr.desc
                  operator := hdr.operator
                  squawk := pyS ((jsonGet ac ("squawk")).getD Json.null)
                  category := pyS ((jsonGet ac ("category")).getD Json.null)
                  source_type := if 9 < l.length then pyS (l.getD 9 Json.null) else none }
        else .skip
      | _, _ => .skip
  | _ => .skip

/-- Runs the point loop over a trace sequence: records yielded in order, and
the first uncaught exception, if any (it stops the loop, as in Python). -/
def processTrace (cfg : GeoConfig) [DecidablePred (HavFar cfg)]
    (hdr : Header) : List Json → List PingRecord × Option PyError
  | [] => ([], none)
  | pt :: pts =>
    match processPoint cfg hdr pt with
    | .skip => processTrace cfg hdr pts
    | .crash e => ([], some e)
    | .yield r =>
      ((processTrace cfg hdr pts).1.cons r, (processTrace cfg hdr pts).2)

/-- Embeds one entry's processing (lines 101–150): header extraction, then
the point loop over `data.get("trace", [])`. -/
def processEntry (cfg : GeoConfig) [DecidablePred (HavFar cfg)]
    (data : Json) : List PingRecord × Option PyError :=
  match extractHeader data with
  | .error e => ([], some e)
  | .ok hdr =>
    match pyGet data ("trace") (.arr []) with
    | .error e => ([], some e)
    | .ok tr =>
      match pyIter tr with
      | .error e => ([], some e)
      | .ok pts => processTrace cfg hdr pts

/-- Raw entry payload bytes, at the granularity the decoder observes them:
a valid gzip stream wrapping other bytes, bytes that spell a JSON text, or
bytes that are neither. -/
inductive RawBytes where
  | gzipOf (b : RawBytes) : RawBytes
  | text (j : Json) : RawBytes
  | garbage (n : Nat) : RawBytes

/-- Embeds `gzip.decompress`: succeeds exactly on valid gzip data. -/
def gunzip : RawBytes → Option RawBytes
  | .gzipOf b => some b
  | _ => none

/-- Embeds `json.loads`: succeeds exactly on bytes spelling a JSON text. -/
def jsonLoads : RawBytes → Option Json
  | .text j => some j
  | _ => none

/-- Embeds the payload decode of `stream_pings` (lines 93–99):
`try: json.loads(gzip.decompress(raw)) except: try: json.loads(raw)
except: continue` — `none` is the skip. -/
def decodePayload (raw : RawBytes) : Option Json :=
  match (gunzip raw).bind jsonLoads with
  | some d => some d
  | none => jsonLoads raw

/-- Whether the first list is an initial segment of the second. -/
def isInitSeg : List Char → List Char → Bool
  | [], _ => true
  | _ :: _, [] => false
  | c :: cs, d :: ds => c == d && isInitSeg cs ds

/-- Python `name.startswith(p)`. -/
def leadsWith (p name : String) : Bool :=
  isInitSeg p.data name.data

/-- Python `name.endswith(p)`. -/
def trailsWith (p name : String) : Bool :=
  isInitSeg p.data.reverse name.data.reverse

/-- Embeds the entry walk of `stream_pings` (lines 84–150) over a list of
(name, payload) tar members (`none` payload: `extractfile` returned `None`).
Produces the yielded records in order and the first uncaught exception. -/
def streamPings (cfg : GeoConfig) [DecidablePred (HavFar cfg)] :
    List (String × Option RawBytes) → List PingRecord × Option PyError
  | [] => ([], none)
  | (name, payload) :: rest =>
    if ¬ (leadsWith ("./traces/") name) ∨ ¬ (trailsWith (".json") name) then
      streamPings cfg rest
    else
      match payload with
      | none => streamPings cfg rest
      | some raw =>
        match decodePayload raw with
        | none => streamPings cfg rest
        | some data =>
          match (processEntry cfg data).2 with
          | some e => ((processEntry cfg data).1, some e)
          | none =>
            ((processEntry cfg data).1 ++ (streamPings cfg rest).1,
              (streamPings cfg rest).2)

/-- Classical decidability of the haversine comparison, used to instantiate
closed statements at concrete configurations. -/
noncomputable def havClassical (cfg : GeoConfig) : DecidablePred (HavFar cfg) :=
  fun _ => Classical.dec _

/-- Symmetry of the embedded haversine formula. -/
lemma haversine_symm_aux (lat1 lon1 lat2 lon2 : ℝ) :
    haversine_km lat1 lon1 lat2 lon2 = haversine_km lat2 lon2 lat1 lon1 := by
  unfold haversine_km
  have h1 : Real.sin (radians (lat2 - lat1) / 2) ^ 2 =
      Real.sin (radians (lat1 - lat2) / 2) ^ 2 := by
    have h : radians (lat2 - lat1) / 2 = -(radians (lat1 - lat2) / 2) := by
      unfold radians; ring
    rw [h, Real.sin_neg]; ring
  have h2 : Real.sin (radians (lon2 - lon1) / 2) ^ 2 =
      Real.sin (radians (lon1 - lon2) / 2) ^ 2 := by
    have h : radians (lon2 - lon1) / 2 = -(radians (lon1 - lon2) / 2) := by
      unfold radians; ring
    rw [h, Real.sin_neg]; ring
  rw [h1, h2, mul_comm (Real.cos (radians lat1)) (Real.cos (radians lat2))]

/-- The embedded haversine distance from a point to itself is zero. -/
lemma haversine_self_aux (lat lon : ℝ) : haversine_km lat lon lat lon = 0 := by
  simp [haversine_km, radians, Real.arcsin_zero]

/-- The altitude guard passes exactly when every configured minimum is met by
a present altitude. -/
lemma minAltReject_eq_false_iff (m a : Option ℚ) :
    minAltReject m a = false ↔ ∀ v, m = some v → ∃ x, a = some x ∧ v ≤ x := by
  cases m <;> cases a <;> simp [minAltReject, not_lt]

/-- GeoFilter acceptance as the specification words it (spec §4.3, §8): the
point lies in the bounding box, meets any configured minimum altitude with a
present barometric altitude, and its haversine distance from the center does
not exceed the configured maximum. -/
def geoFilterSpec (cfg : GeoConfig) (lat lon : ℚ) (alt : Option ℚ) : Prop :=
  (cfg.lat_min ≤ lat ∧ lat ≤ cfg.lat_max ∧ cfg.lon_min ≤ lon ∧ lon ≤ cfg.lon_max) ∧
  (∀ m, cfg.min_alt_ft = some m → ∃ a, alt = some a ∧ m ≤ a) ∧
  haversine_km (cfg.center_lat : ℝ) (cfg.center_lon : ℝ) (lat : ℝ) (lon : ℝ) ≤
    (cfg.max_dist_km : ℝ)

/-- C1: the geo filter accepts a point with parsed latitude and longitude iff
the latitude and longitude lie in the bounding box, any configured minimum
altitude is met by a present barometric altitude, and the haversine distance
from the configured center does not exceed the configured maximum; in
particular a point outside the bounding box is rejected regardless of its
distance from the center. -/
theorem geoAccept_iff_geoFilterSpec (cfg : GeoConfig) [DecidablePred (HavFar cfg)]
    (lat lon : ℚ) (alt : Option ℚ) :
    geoAccept cfg lat lon alt = true ↔ geoFilterSpec cfg lat lon alt := by
  unfold geoAccept geoFilterSpec
  by_cases hb : cfg.lat_min ≤ lat ∧ lat ≤ cfg.lat_max ∧ cfg.lon_min ≤ lon ∧ lon ≤ cfg.lon_max
  · rw [if_neg (not_not_intro hb)]
    by_cases hf : HavFar cfg (lat, lon)
    · rw [if_pos hf]
      simp only [Bool.false_eq_true, false_iff]
      intro hc
      exact absurd hc.2.2 (not_le.mpr hf)
    · rw [if_neg hf]
      have hle : haversine_km (cfg.center_lat : ℝ) (cfg.center_lon : ℝ)
          (lat : ℝ) (lon : ℝ) ≤ (cfg.max_dist_km : ℝ) := not_lt.mp hf
      by_cases hm : minAltReject cfg.min_alt_ft alt = true
      · rw [if_pos hm]
        simp only [Bool.false_eq_true, false_iff]
        intro hc
        have hco := (minAltReject_eq_false_iff cfg.min_alt_ft alt).mpr hc.2.1
        rw [hm] at hco
        simp at hco
      · rw [if_neg hm]
        have hm' : minAltReject cfg.min_alt_ft alt = false := by
          revert hm; cases minAltReject cfg.min_alt_ft alt <;> simp
        simp only [true_iff]
        exact ⟨hb, (minAltReject_eq_false_iff cfg.min_alt_ft alt).mp hm', hle⟩
  · rw [if_pos hb]
    simp only [Bool.false_eq_true, false_iff]
    intro hc
    exact hb hc.1

/-- C8: the haversine distance function of `find_pings.py` is symmetric, and
the distance from any point to itself is `0`. -/
theorem haversine_symm_and_self_zero :
    (∀ lat1 lon1 lat2 lon2 : ℝ,
        haversine_km lat1 lon1 lat2 lon2 = haversine_km lat2 lon2 lat1 lon1) ∧
    (∀ lat lon : ℝ, haversine_km lat lon lat lon = 0) :=
  ⟨haversine_symm_aux, haversine_self_aux⟩

/-- Permissive test configuration whose center is the worked example's point;
its box is `[42,44] × [-90,-89]` and the distance cap is 1000 km. -/
def cfg0 : GeoConfig :=
  { lat_min := 42, lat_max := 44, lon_min := -90, lon_max := -89,
    center_lat := 43.07, center_lon := -89.41, max_dist_km := 1000, min_alt_ft := none }

/-- The worked example's trace point `[10, 43.07, -89.41, 3000]`. -/
def pt0 : Json := .arr [.num 10, .num 43.07, .num (-89.41), .num 3000]

/-- The worked example's entry
`{"timestamp": 1700000000, "icao": "A1B2C3", "trace": [[10, 43.07, -89.41, 3000]]}`. -/
def data0 : Json :=
  .obj [(("timestamp"), .num 1700000000), (("icao"), .str ("A1B2C3")), (("trace"), .arr [pt0])]

/-- Header the source computes for `data0`. -/
def hdr0 : Header :=
  { base_ts := .num 1700000000, icao := some ("a1b2c3"), reg := none,
    atype := none, desc := none, operator := none }

/-- Record the source yields for `data0`'s single trace point. -/
def rec0 : PingRecord :=
  { timestamp := "2023-11-14T22:13:30+00:00", icao := some ("a1b2c3"),
    registration := none, flight := none, lat := 43.07, lon := -89.41,
    altitude_baro := some 3000, alt_geom := none, ground_speed := none,
    track_degrees := none, vertical_rate := none, aircraft_type := none,
    description := none, operator := none, squawk := none, category := none,
    source_type := none }

/-- The example point sits at `cfg0`'s center, so it is not too far. -/
lemma not_havFar0 : ¬ HavFar cfg0 (43.07, -89.41) := by
  have h : haversine_km ((43.07 : ℚ) : ℝ) ((-89.41 : ℚ) : ℝ) ((43.07 : ℚ) : ℝ)
      ((-89.41 : ℚ) : ℝ) = 0 := haversine_self_aux _ _
  simp only [HavFar, cfg0, gt_iff_lt, not_lt]
  rw [h]
  positivity

/-- The geo filter accepts the example point under `cfg0`. -/
lemma geoAccept0 (inst : DecidablePred (HavFar cfg0)) :
    @geoAccept cfg0 inst 43.07 (-89.41) (some 3000) = true := by
  unfold geoAccept
  rw [if_neg (by norm_num [cfg0]), if_neg not_havFar0, if_neg (by norm_num [cfg0, minAltReject])]

/-- Point-level evaluation of the worked example, for any decision procedure
for the haversine test. -/
lemma processPoint_pt0 (inst : DecidablePred (HavFar cfg0)) :
    @processPoint cfg0 inst hdr0 pt0 = .yield rec0 := by
  have hg := geoAccept0 inst
  have hg' : @geoAccept cfg0 inst (4307 / 100) (-(8941 / 100)) (some 3000) = true := by
    have e1 : (4307 / 100 : ℚ) = 43.07 := by norm_num
    have e2 : (-(8941 / 100) : ℚ) = -89.41 := by norm_num
    rw [e1, e2]; exact hg
  simp only [processPoint, pt0, List.getD, List.length]
  norm_num [pyF]
  rw [hg']
  have hp : pyInt ((1700000000 : ℚ) + 10) = 1700000010 := by norm_num [pyInt]
  simp [hdr0, pyAddNum, rec0, hp]
  exact ⟨rfl, rfl, by norm_num, by norm_num, rfl, rfl⟩

/-- Entry-level evaluation of the worked example: exactly one record, no
uncaught exception. -/
lemma eval_entry0 (inst : DecidablePred (HavFar cfg0)) :
    @processEntry cfg0 inst data0 = ([rec0], none) := by
  have hp := processPoint_pt0 inst
  simp only [processEntry]
  rw [show extractHeader data0 = .ok hdr0 from rfl]
  rw [show pyGet data0 ("trace") (.arr []) = .ok (.arr [pt0]) from rfl]
  simp only [pyIter, processTrace, hp]

/-- C1 witness: the equivalence instantiated at the example configuration and
point. -/
theorem geoAccept_iff_geoFilterSpec_witness :
    @geoAccept cfg0 (havClassical cfg0) 43.07 (-89.41) (some 3000) = true ↔
      geoFilterSpec cfg0 43.07 (-89.41) (some 3000) :=
  @geoAccept_iff_geoFilterSpec cfg0 (havClassical cfg0) 43.07 (-89.41) (some 3000)

/-- C2 counterexample: on the worked example the code yields one record, but
its timestamp string is not `2023-11-14T22:13:30Z` (Python's `isoformat`
spells UTC as `+00:00`). -/
theorem trace_example_timestamp_not_Z :
    @processEntry cfg0 (havClassical cfg0) data0 = ([rec0], none) ∧
    rec0.timestamp ≠ ("2023-11-14T22:13:30Z") :=
  ⟨eval_entry0 (havClassical cfg0), by decide⟩

/-- C2 (amended): on the header `timestamp 1700000000, icao "A1B2C3"` with
the single trace array `[10, 43.07, -89.41, 3000]`, the decoder yields
exactly one record, with icao `"a1b2c3"`, lat `43.07`, lon `-89.41`,
altitude_baro `3000`, and timestamp the absolute UTC ISO-8601 string
`2023-11-14T22:13:30+00:00` — header base plus offset, truncated to the
second, with the UTC offset rendered `+00:00` rather than `Z`. -/
theorem trace_example_record_fields :
    @processEntry cfg0 (havClassical cfg0) data0 = ([rec0], none) ∧
    rec0.icao = some ("a1b2c3") ∧ rec0.lat = 43.07 ∧ rec0.lon = -89.41 ∧
    rec0.altitude_baro = some 3000 ∧
    rec0.timestamp = ("2023-11-14T22:13:30+00:00") :=
  ⟨eval_entry0 (havClassical cfg0), rfl, rfl, rfl, rfl, rfl⟩

/-- C6: with a configured minimum altitude of 1000 ft, a point with absent
barometric altitude is rejected, a point at 500 ft is rejected, and a point
at exactly 1000 ft that passes the position checks is accepted — the
boundary is inclusive. -/
theorem min_alt_boundary_inclusive (cfg : GeoConfig) [DecidablePred (HavFar cfg)]
    (lat lon : ℚ) (hmin : cfg.min_alt_ft = some 1000) :
    geoAccept cfg lat lon none = false ∧
    geoAccept cfg lat lon (some 500) = false ∧
    ((cfg.lat_min ≤ lat ∧ lat ≤ cfg.lat_max ∧ cfg.lon_min ≤ lon ∧ lon ≤ cfg.lon_max) →
      ¬ HavFar cfg (lat, lon) →
      geoAccept cfg lat lon (some 1000) = true) := by
  unfold geoAccept
  refine ⟨?_, ?_, fun hb hf => ?_⟩
  · split_ifs with h1 h2 h3 <;> try rfl
    rw [hmin] at h3
    simp [minAltReject] at h3
  · split_ifs with h1 h2 h3 <;> try rfl
    rw [hmin] at h3
    simp only [minAltReject, decide_eq_true_eq] at h3
    exact absurd (by norm_num : (500 : ℚ) < 1000) h3
  · rw [if_neg (not_not_intro hb), if_neg hf,
      if_neg (by rw [hmin]; simp [minAltReject])]

/-- The example configuration with a 1000 ft minimum altitude. -/
def cfg1 : GeoConfig :=
  { cfg0 with min_alt_ft := some 1000 }

/-- C6 witness: the boundary behaviour at the concrete configuration `cfg1`. -/
theorem min_alt_boundary_inclusive_witness :
    @geoAccept cfg1 (havClassical cfg1) 43.07 (-89.41) none = false ∧
    @geoAccept cfg1 (havClassical cfg1) 43.07 (-89.41) (some 500) = false ∧
    ((cfg1.lat_min ≤ 43.07 ∧ (43.07 : ℚ) ≤ cfg1.lat_max ∧
        cfg1.lon_min ≤ -89.41 ∧ (-89.41 : ℚ) ≤ cfg1.lon_max) →
      ¬ HavFar cfg1 (43.07, -89.41) →
      @geoAccept cfg1 (havClassical cfg1) 43.07 (-89.41) (some 1000) = true) :=
  @min_alt_boundary_inclusive cfg1 (havClassical cfg1) 43.07 (-89.41) rfl

/-- Entry whose `icao` header value is a number rather than a string, and
whose trace holds an otherwise perfectly matching point. -/
def dataBad : Json :=
  .obj [(("icao"), .num 5), (("timestamp"), .num 1700000000), (("trace"), .arr [pt0])]

/-- C3 counterexample: header extraction is not defensive for a malformed
`icao`: on a numeric `icao` the unprotected `.lower()` raises an uncaught
`AttributeError`, the whole walk aborts with no records, and the following
well-formed entry is never reached — even though that entry alone yields a
record. -/
theorem nonstring_icao_aborts_stream :
    @streamPings cfg0 (havClassical cfg0)
        [(("./traces/bad.json"), some (.text dataBad)),
         (("./traces/a1b2c3.json"), some (.text data0))] =
      ([], some PyError.attributeError) ∧
    (@streamPings cfg0 (havClassical cfg0)
        [(("./traces/a1b2c3.json"), some (.text data0))]).1 = [rec0] := by
  constructor
  · rfl
  · have he := eval_entry0 (havClassical cfg0)
    simp only [streamPings]
    rw [if_neg (by decide)]
    rw [show decodePayload (.text data0) = some data0 from rfl]
    simp only [he]
    rfl

/-- Header extraction on a JSON object whose icao slot (after defaulting)
holds a string: every field comes from its defensive accessor. -/
lemma extractHeader_obj (fs : List (String × Json)) (s : String)
    (hicao : (jsonGet (.obj fs) ("icao")).getD (.str "") = .str s) :
    extractHeader (.obj fs) = .ok
      { base_ts := (jsonGet (.obj fs) ("timestamp")).getD (.num 0),
        icao := some (pyStrip (pyLowerStr s)),
        reg := pyS ((jsonGet (.obj fs) ("r")).getD .null),
        atype := pyS ((jsonGet (.obj fs) ("t")).getD .null),
        desc := pyS ((jsonGet (.obj fs) ("desc")).getD .null),
        operator := pyS ((jsonGet (.obj fs) ("ownOp")).getD .null) } := by
  have step : extractHeader (.obj fs) =
      Except.bind (pyLower ((jsonGet (.obj fs) ("icao")).getD (.str "")))
        (fun icaoLow => .ok
          { base_ts := (jsonGet (.obj fs) ("timestamp")).getD (.num 0),
            icao := some (pyStrip icaoLow),
            reg := pyS ((jsonGet (.obj fs) ("r")).getD .null),
            atype := pyS ((jsonGet (.obj fs) ("t")).getD .null),
            desc := pyS ((jsonGet (.obj fs) ("desc")).getD .null),
            operator := pyS ((jsonGet (.obj fs) ("ownOp")).getD .null) }) := rfl
  rw [step, hicao]
  rfl

/-- C3 (amended): for every entry whose payload parses as a JSON object in
which the icao field is absent or a string, header extraction raises no
error, and each absent header field yields an absent value (an absent icao
yields the empty string).  A present non-string icao instead raises an
uncaught AttributeError that aborts the extraction (see the
counterexample), and no entry is skipped on header grounds. -/
theorem extractHeader_defensive_for_absent_fields (fs : List (String × Json))
    (hicao : ∀ v, jsonGet (.obj fs) ("icao") = some v → ∃ s, v = Json.str s) :
    ∃ hdr, extractHeader (.obj fs) = .ok hdr ∧
      (jsonGet (.obj fs) ("icao") = none → hdr.icao = some ("")) ∧
      (jsonGet (.obj fs) ("r") = none → hdr.reg = none) ∧
      (jsonGet (.obj fs) ("t") = none → hdr.atype = none) ∧
      (jsonGet (.obj fs) ("desc") = none → hdr.desc = none) ∧
      (jsonGet (.obj fs) ("ownOp") = none → hdr.operator = none) := by
  rcases h : jsonGet (.obj fs) ("icao") with _ | v
  · refine ⟨_, extractHeader_obj fs "" (by rw [h]; rfl), fun _ => rfl, ?_, ?_, ?_, ?_⟩
    all_goals intro habs
    all_goals rw [habs]
    all_goals rfl
  · rcases hicao v h with ⟨s, rfl⟩
    refine ⟨_, extractHeader_obj fs s (by rw [h]; rfl), ?_, ?_, ?_, ?_, ?_⟩
    · intro habs
      exact absurd habs (by simp)
    all_goals intro habs
    all_goals rw [habs]
    all_goals rfl

/-- C3 witness: the empty object extracts a header with every optional field
absent and the empty icao. -/
theorem extractHeader_defensive_witness :
    ∃ hdr, extractHeader (.obj []) = .ok hdr ∧
      (jsonGet (.obj []) ("icao") = none → hdr.icao = some ("")) ∧
      (jsonGet (.obj []) ("r") = none → hdr.reg = none) ∧
      (jsonGet (.obj []) ("t") = none → hdr.atype = none) ∧
      (jsonGet (.obj []) ("desc") = none → hdr.desc = none) ∧
      (jsonGet (.obj []) ("ownOp") = none → hdr.operator = none) :=
  extractHeader_defensive_for_absent_fields [] (fun _ hv => Option.noConfusion hv)

/-- C4: the decoder first attempts gzip decompression and JSON-parses the
result; when gzip fails it falls back to parsing the raw bytes as JSON, so a
non-gzip JSON payload is decoded (and streams exactly as a gzipped copy of
itself would); when both paths fail, the entry is skipped and the walk
continues with the remaining entries. -/
theorem decode_gzip_fallback_and_skip (cfg : GeoConfig) [DecidablePred (HavFar cfg)]
    (name : String) (raw : RawBytes) (rest : List (String × Option RawBytes))
    (h1 : leadsWith ("./traces/") name = true)
    (h2 : trailsWith (".json") name = true) :
    (∀ b d, gunzip raw = some b → jsonLoads b = some d → decodePayload raw = some d) ∧
    (gunzip raw = none → decodePayload raw = jsonLoads raw) ∧
    (∀ d, gunzip raw = none → jsonLoads raw = some d →
      streamPings cfg ((name, some raw) :: rest) =
        streamPings cfg ((name, some (.gzipOf raw)) :: rest)) ∧
    (decodePayload raw = none →
      streamPings cfg ((name, some raw) :: rest) = streamPings cfg rest) := by
  refine ⟨?_, ?_, ?_, ?_⟩
  · intro b d hb hd
    simp [decodePayload, hb, hd]
  · intro hg
    simp [decodePayload, hg]
  · intro d hg hj
    have e1 : decodePayload raw = some d := by simp [decodePayload, hg, hj]
    have e2 : decodePayload (.gzipOf raw) = some d := by simp [decodePayload, gunzip, hj]
    simp only [streamPings]
    rw [if_neg (by simp [h1, h2]), if_neg (by simp [h1, h2]), e1, e2]
  · intro hd
    simp only [streamPings]
    rw [if_neg (by simp [h1, h2]), hd]

/-- C4 witness: the control-flow facts at a concrete plain-JSON payload. -/
theorem decode_gzip_fallback_and_skip_witness :
    (∀ b d, gunzip (.text data0) = some b → jsonLoads b = some d →
      decodePayload (.text data0) = some d) ∧
    (gunzip (.text data0) = none → decodePayload (.text data0) = jsonLoads (.text data0)) ∧
    (∀ d, gunzip (.text data0) = none → jsonLoads (.text data0) = some d →
      @streamPings cfg0 (havClassical cfg0) [(("./traces/a1b2c3.json"), some (.text data0))] =
        @streamPings cfg0 (havClassical cfg0)
          [(("./traces/a1b2c3.json"), some (.gzipOf (.text data0)))]) ∧
    (decodePayload (.text data0) = none →
      @streamPings cfg0 (havClassical cfg0) [(("./traces/a1b2c3.json"), some (.text data0))] =
        @streamPings cfg0 (havClassical cfg0) []) :=
  @decode_gzip_fallback_and_skip cfg0 (havClassical cfg0) ("./traces/a1b2c3.json")
    (.text data0) [] rfl rfl

/-- Trace elements the point loop discards structurally (lines 108–115):
not an array, shorter than three elements, or with an unparsable latitude
or longitude. -/
def malformedPoint (pt : Json) : Prop :=
  match pt with
  | .arr l =>
    l.length < 3 ∨ pyF (l.getD 1 Json.null) = none ∨ pyF (l.getD 2 Json.null) = none
  | _ => True

/-- A malformed trace element is skipped by the point loop. -/
lemma processPoint_skip_of_malformed (cfg : GeoConfig) [DecidablePred (HavFar cfg)]
    (hdr : Header) (pt : Json) (h : malformedPoint pt) :
    processPoint cfg hdr pt = .skip := by
  cases pt with
  | arr l =>
    simp only [malformedPoint] at h
    simp only [processPoint]
    by_cases hl : l.length < 3
    · rw [if_pos hl]
    · rw [if_neg hl]
      rcases h with h | h | h
      · exact absurd h hl
      · rw [h]
      · rcases hlat : pyF (l.getD 1 Json.null) with _ | lat
        · rfl
        · rw [h]
  | null => rfl
  | bool b => rfl
  | num q => rfl
  | str s => rfl
  | obj fs => rfl

/-- C5: a malformed trace element — not an array, shorter than three, or
with unparsable latitude or longitude — is discarded individually: it
produces no record and the records of the sibling points of the same entry
are exactly those produced without it. -/
theorem malformed_point_dropped (cfg : GeoConfig) [DecidablePred (HavFar cfg)]
    (hdr : Header) (pre post : List Json) (pt : Json) (h : malformedPoint pt) :
    processTrace cfg hdr (pre ++ pt :: post) = processTrace cfg hdr (pre ++ post) := by
  induction pre with
  | nil =>
    simp only [List.nil_append, processTrace,
      processPoint_skip_of_malformed cfg hdr pt h]
  | cons p ps ih =>
    simp only [List.cons_append, processTrace, List.append_eq, ih]

/-- C5 witness: a short array between two good points changes nothing. -/
theorem malformed_point_dropped_witness :
    malformedPoint (.arr [.num 1]) ∧
    @processTrace cfg0 (havClassical cfg0) hdr0 ([pt0] ++ (.arr [.num 1]) :: [pt0]) =
      @processTrace cfg0 (havClassical cfg0) hdr0 ([pt0] ++ [pt0]) :=
  ⟨Or.inl (by decide),
   @malformed_point_dropped cfg0 (havClassical cfg0) hdr0 [pt0] [pt0] (.arr [.num 1])
     (Or.inl (by decide))⟩

/-- Every record the point loop yields carries the header's five
header-derived fields unchanged. -/
lemma processPoint_yield_header (cfg : GeoConfig) [DecidablePred (HavFar cfg)]
    (hdr : Header) (pt : Json) (r : PingRecord)
    (h : processPoint cfg hdr pt = .yield r) :
    r.icao = hdr.icao ∧ r.registration = hdr.reg ∧ r.aircraft_type = hdr.atype ∧
    r.description = hdr.desc ∧ r.operator = hdr.operator := by
  cases pt with
  | arr l =>
    simp only [processPoint] at h
    by_cases hl : l.length < 3
    · rw [if_pos hl] at h
      exact absurd h (by simp)
    · rw [if_neg hl] at h
      rcases h1 : pyF (l.getD 1 Json.null) with _ | lat
      · simp only [h1] at h
        exact absurd h (by simp)
      · rcases h2 : pyF (l.getD 2 Json.null) with _ | lon
        · simp only [h1, h2] at h
          exact absurd h (by simp)
        · simp only [h1, h2] at h
          by_cases hg : geoAccept cfg lat lon
              (if 3 < l.length then pyF (l.getD 3 Json.null) else none) = true
          · rw [if_pos hg] at h
            rcases h0 : pyF (l.getD 0 Json.null) with _ | offset
            · simp only [h0] at h
              exact absurd h (by simp)
            · simp only [h0] at h
              rcases ha : pyAddNum hdr.base_ts offset with _ | t
              · simp only [ha] at h
                exact absurd h (by simp)
              · simp only [ha] at h
                cases h
                exact ⟨rfl, rfl, rfl, rfl, rfl⟩
          · rw [if_neg hg] at h
            exact absurd h (by simp)
  | null => exact absurd h (by simp [processPoint])
  | bool b => exact absurd h (by simp [processPoint])
  | num q => exact absurd h (by simp [processPoint])
  | str s => exact absurd h (by simp [processPoint])
  | obj fs => exact absurd h (by simp [processPoint])

/-- Every record of a processed trace comes from some point the loop
yielded. -/
lemma mem_processTrace_yield (cfg : GeoConfig) [DecidablePred (HavFar cfg)]
    (hdr : Header) (pts : List Json) (r : PingRecord)
    (hr : r ∈ (processTrace cfg hdr pts).1) :
    ∃ pt ∈ pts, processPoint cfg hdr pt = .yield r := by
  induction pts with
  | nil => simp [processTrace] at hr
  | cons p ps ih =>
    rcases hp : processPoint cfg hdr p with _ | r' | e
    · simp only [processTrace, hp] at hr
      rcases ih hr with ⟨pt, hmem, hy⟩
      exact ⟨pt, List.mem_cons_of_mem _ hmem, hy⟩
    · simp only [processTrace, hp, List.cons_append, List.mem_cons] at hr
      rcases hr with rfl | hmem
      · exact ⟨p, List.mem_cons_self _ _, hp⟩
      · rcases ih hmem with ⟨pt, hmem', hy⟩
        exact ⟨pt, List.mem_cons_of_mem _ hmem', hy⟩
    · simp only [processTrace, hp] at hr
      simp at hr

/-- C7: all records emitted from one entry carry identical header-derived
fields — the header computed once per entry is reused unchanged for every
point of that entry. -/
theorem header_constant_across_entry_records (cfg : GeoConfig)
    [DecidablePred (HavFar cfg)] (data : Json) (hdr : Header)
    (hh : extractHeader data = .ok hdr) (r : PingRecord)
    (hr : r ∈ (processEntry cfg data).1) :
    r.icao = hdr.icao ∧ r.registration = hdr.reg ∧ r.aircraft_type = hdr.atype ∧
    r.description = hdr.desc ∧ r.operator = hdr.operator := by
  simp only [processEntry, hh] at hr
  rcases hg : pyGet data ("trace") (.arr []) with e | tr
  · simp only [hg] at hr
    simp at hr
  · simp only [hg] at hr
    rcases hi : pyIter tr with e | pts
    · simp only [hi] at hr
      simp at hr
    · simp only [hi] at hr
      rcases mem_processTrace_yield cfg hdr pts r hr with ⟨pt, _, hy⟩
      exact processPoint_yield_header cfg hdr pt r hy

/-- C7 witness: the worked example's record carries `hdr0`'s fields. -/
theorem header_constant_across_entry_records_witness :
    extractHeader data0 = .ok hdr0 ∧
    (rec0.icao = hdr0.icao ∧ rec0.registration = hdr0.reg ∧
      rec0.aircraft_type = hdr0.atype ∧ rec0.description = hdr0.desc ∧
      rec0.operator = hdr0.operator) :=
  ⟨rfl, @header_constant_across_entry_records cfg0 (havClassical cfg0) data0 hdr0 rfl rec0
    (by rw [eval_entry0 (havClassical cfg0)]; exact List.mem_singleton.mpr rfl)⟩

/-- A trace element whose index-0 offset does not parse is always skipped. -/
lemma processPoint_skip_of_no_offset (cfg : GeoConfig) [DecidablePred (HavFar cfg)]
    (hdr : Header) (l : List Json) (hoff : pyF (l.getD 0 Json.null) = none) :
    processPoint cfg hdr (.arr l) = .skip := by
  simp only [processPoint]
  by_cases hl : l.length < 3
  · rw [if_pos hl]
  · rw [if_neg hl]
    rcases h1 : pyF (l.getD 1 Json.null) with _ | lat
    · simp only [h1]
    · rcases h2 : pyF (l.getD 2 Json.null) with _ | lon
      · simp only [h1, h2]
      · simp only [h1, h2]
        by_cases hg : geoAccept cfg lat lon
            (if 3 < l.length then pyF (l.getD 3 Json.null) else none) = true
        · rw [if_pos hg, hoff]
        · rw [if_neg hg]

/-- C10: a trace point whose index-0 time offset is absent or unparsable is
discarded and yields no record, even when it is a well-formed array with
parsable coordinates that passes every configured geographic and altitude
check. -/
theorem unparsable_offset_point_skipped (cfg : GeoConfig)
    [DecidablePred (HavFar cfg)] (hdr : Header) (l : List Json) (lat lon : ℚ)
    (_hlen : 3 ≤ l.length)
    (_hlat : pyF (l.getD 1 Json.null) = some lat)
    (_hlon : pyF (l.getD 2 Json.null) = some lon)
    (_hgeo : geoAccept cfg lat lon
      (if 3 < l.length then pyF (l.getD 3 Json.null) else none) = true)
    (hoff : pyF (l.getD 0 Json.null) = none) :
    processPoint cfg hdr (.arr l) = .skip :=
  processPoint_skip_of_no_offset cfg hdr l hoff

/-- C10 witness: a point with a null offset, valid coordinates and a passing
altitude is skipped under `cfg0`. -/
theorem unparsable_offset_point_skipped_witness :
    pyF (([Json.null, .num 43.07, .num (-89.41), .num 3000] : List Json).getD 0 Json.null) =
      none ∧
    @processPoint cfg0 (havClassical cfg0) hdr0
      (.arr [Json.null, .num 43.07, .num (-89.41), .num 3000]) = .skip :=
  ⟨rfl, @unparsable_offset_point_skipped cfg0 (havClassical cfg0) hdr0
    [Json.null, .num 43.07, .num (-89.41), .num 3000] 43.07 (-89.41)
    (by decide) rfl rfl (geoAccept0 (havClassical cfg0)) rfl⟩
